import Mathlib

/-!
Verification of the IP-lookup service (`hariomop12/IP_lookup`).

The development shallowly embeds the two relevant source files:
* the Express lookup endpoint `app.get("/api/lookup/:ip?")` together with
  `isValidIPv4` and the three global database handles `ipCountryDB`,
  `ipCityDB`, `ipAsnDB`;
* the refresh script `downloadAndExtractDatabase` with its nested
  `findMmdbFile` directory walk.

MaxMind databases are opaque libraries from the point of view of the
service, so a loaded handle is modelled as a function from the looked-up
string to an optional record; the record types mirror exactly the fields
the endpoint reads. Numeric JSON values (latitude, longitude) are only
copied, never computed with, so they are modelled as integers.
-/

namespace IPLookup

/-! ## IPv4 validation (`isValidIPv4`, src/unnamed/part_000 lines 212-216)

The source tests the anchored regex
`^(?:(?:25[0-5]|2[0-4][0-9]|[01]?[0-9][0-9]?)\.){3}(?:25[0-5]|2[0-4][0-9]|[01]?[0-9][0-9]?)$`.
Because every octet alternative consumes only digits and is followed by a
literal dot (or the end anchor), the regex matches a string exactly when
the string splits on `.` into four components, each wholly matched by the
octet alternation. `octetMatch` spells out the alternation on the digit
strings it can match: any one or two digits, or three digits of the shapes
`25[0-5]`, `2[0-4][0-9]`, `[01][0-9][0-9]`. -/

/-- One octet group of the regex, on the exploded character list of a
dot-free component. -/
def octetMatch : List Char → Bool
  | [a] => a.isDigit
  | [a, b] => a.isDigit && b.isDigit
  | [a, b, c] =>
      (a == '2' && b == '5' &&
        (c == '0' || c == '1' || c == '2' || c == '3' || c == '4' || c == '5'))
      || (a == '2' &&
        (b == '0' || b == '1' || b == '2' || b == '3' || b == '4') && c.isDigit)
      || ((a == '0' || a == '1') && b.isDigit && c.isDigit)
  | _ => false

/-- Split a character list at every `'.'` (the components keep no dots);
mirrors how the anchored regex decomposes its subject between the literal
dots. `[]` input yields one empty component, like JavaScript splitting. -/
def splitOctets : List Char → List (List Char)
  | [] => [[]]
  | c :: cs =>
      let rest := splitOctets cs
      if c == '.' then [] :: rest
      else
        match rest with
        | r :: rs => (c :: r) :: rs
        | [] => [[c]]

/-- `isValidIPv4` from the source: the anchored dotted-quad regex. -/
def isValidIPv4 (ip : String) : Bool :=
  match splitOctets ip.data with
  | [a, b, c, d] => octetMatch a && octetMatch b && octetMatch c && octetMatch d
  | _ => false

/-! ## Data model of the lookup result and of the MaxMind records -/

/-- `names.en` of a MaxMind entity. -/
structure Names where
  en : String
deriving DecidableEq

/-- The `country` sub-record (`names.en`, `iso_code`). -/
structure CountryInfo where
  names : Names
  iso_code : String
deriving DecidableEq

/-- One element of `subdivisions`. -/
structure Subdivision where
  names : Names
deriving DecidableEq

/-- The `city` sub-record. -/
structure CityNameInfo where
  names : Names
deriving DecidableEq

/-- The `postal` sub-record. -/
structure PostalInfo where
  code : String
deriving DecidableEq

/-- The `location` sub-record (latitude, longitude, time zone). -/
structure LocationData where
  latitude : Int
  longitude : Int
  time_zone : String
deriving DecidableEq

/-- A record returned by `ipCityDB.get`: every part the endpoint reads is
optional, matching the truthiness checks in the source. -/
structure CityData where
  country : Option CountryInfo
  subdivisions : List Subdivision
  city : Option CityNameInfo
  postal : Option PostalInfo
  location : Option LocationData
deriving DecidableEq

/-- A record returned by `ipCountryDB.get`. -/
structure CountryData where
  country : Option CountryInfo
deriving DecidableEq

/-- A record returned by `ipAsnDB.get`; the endpoint reads both fields
unconditionally on a hit. -/
structure AsnData where
  autonomous_system_number : Nat
  autonomous_system_organization : String
deriving DecidableEq

/-- `result.location.coordinates`. -/
structure Coordinates where
  latitude : Option Int
  longitude : Option Int
deriving DecidableEq

/-- `result.location`. -/
structure LocationBlock where
  country : String
  countryCode : String
  region : String
  city : String
  zipCode : String
  coordinates : Coordinates
  timezone : String
deriving DecidableEq

/-- `result.network`. -/
structure NetworkBlock where
  isp : String
  organization : String
  asn : Option Nat
  asName : String
deriving DecidableEq

/-- The full `result` object built by the endpoint. -/
structure GeoRecord where
  statusCode : Nat
  status : String
  ip : String
  location : LocationBlock
  network : NetworkBlock
deriving DecidableEq

/-- The default `result` literal (source lines 243-265): every field at its
sentinel. -/
def defaultResult (ip : String) : GeoRecord where
  statusCode := 200
  status := "success"
  ip := ip
  location :=
    { country := "Unknown"
      countryCode := "XX"
      region := "Unknown"
      city := "Unknown"
      zipCode := "Unknown"
      coordinates := { latitude := none, longitude := none }
      timezone := "Unknown" }
  network :=
    { isp := "Unknown"
      organization := "Unknown"
      asn := none
      asName := "Unknown" }

/-! ## The server state: the three global handles -/

/-- A loaded database handle: `get` on a string yields an optional record. -/
abbrev Handle (α : Type) := String → Option α

/-- The three module-level globals of the server. -/
structure DBState where
  ipCountryDB : Option (Handle CountryData)
  ipCityDB : Option (Handle CityData)
  ipAsnDB : Option (Handle AsnData)

/-- Which database a `.get` call went to (the ASN database is the
`network` DatabaseType of the spec). -/
inductive DBType where
  | country
  | city
  | asn
deriving DecidableEq

/-- The endpoint's response: either `res.status(code).json({error, message})`
or `res.json(result)` (HTTP 200). -/
inductive LookupResponse where
  | errorResp (statusCode : Nat) (error : String) (message : String)
  | success (record : GeoRecord)
deriving DecidableEq

/-! ## Field updates performed on a hit (source lines 268-312) -/

/-- The city-hit block: each truthy sub-record overwrites its fields of
`result.location`. -/
def applyCityData (loc : LocationBlock) (d : CityData) : LocationBlock :=
  let loc :=
    match d.country with
    | some c => { loc with country := c.names.en, countryCode := c.iso_code }
    | none => loc
  let loc :=
    match d.subdivisions with
    | s :: _ => { loc with region := s.names.en }
    | [] => loc
  let loc :=
    match d.city with
    | some c => { loc with city := c.names.en }
    | none => loc
  let loc :=
    match d.postal with
    | some p => { loc with zipCode := p.code }
    | none => loc
  match d.location with
  | some l =>
      { loc with
        coordinates := { latitude := some l.latitude, longitude := some l.longitude }
        timezone := l.time_zone }
  | none => loc

/-- The country-hit block: only the two country fields are written. -/
def applyCountryData (loc : LocationBlock) (d : CountryData) : LocationBlock :=
  match d.country with
  | some c => { loc with country := c.names.en, countryCode := c.iso_code }
  | none => loc

/-- The ASN-hit block: all four network fields are written; `isp` mirrors
the organization and `asName` is the template literal `AS${number}`. -/
def applyAsnData (net : NetworkBlock) (d : AsnData) : NetworkBlock :=
  { net with
    asn := some d.autonomous_system_number
    organization := d.autonomous_system_organization
    isp := d.autonomous_system_organization
    asName := "AS" ++ toString d.autonomous_system_number }

/-! ## The lookup endpoint (source lines 220-322)

The handler is translated statement by statement. Besides the response it
returns the list of `.get` calls it made, in order, so that "which database
was consulted" is part of the observable behaviour. -/

/-- The body of `app.get("/api/lookup/:ip?")`, after the requested IP
string has been resolved from the path parameter or the caller address. -/
def lookupHandler (st : DBState) (ipToLookup : String) :
    LookupResponse × List (DBType × String) :=
  if !isValidIPv4 ipToLookup then
    (.errorResp 400 "Invalid IP address format"
      "Please provide a valid IPv4 address.", [])
  else if st.ipCityDB.isNone && st.ipCountryDB.isNone && st.ipAsnDB.isNone then
    (.errorResp 503 "Service unavailable"
      "IP databases are not loaded. Please check server configuration.", [])
  else
    let result0 := defaultResult ipToLookup
    let locStep : GeoRecord × List (DBType × String) :=
      match st.ipCityDB with
      | some cityDB =>
          (match cityDB ipToLookup with
           | some cityData =>
               { result0 with location := applyCityData result0.location cityData }
           | none => result0,
           [(DBType.city, ipToLookup)])
      | none =>
          match st.ipCountryDB with
          | some countryDB =>
              (match countryDB ipToLookup with
               | some countryData =>
                   { result0 with
                     location := applyCountryData result0.location countryData }
               | none => result0,
               [(DBType.country, ipToLookup)])
          | none => (result0, [])
    let netStep : GeoRecord × List (DBType × String) :=
      match st.ipAsnDB with
      | some asnDB =>
          (match asnDB ipToLookup with
           | some asnData =>
               { locStep.1 with network := applyAsnData locStep.1.network asnData }
           | none => locStep.1,
           [(DBType.asn, ipToLookup)])
      | none => (locStep.1, [])
    (.success netStep.1, locStep.2 ++ netStep.2)

/-- The handler body never assigns to the three globals: one request maps
the server state to a response and leaves the state unchanged. -/
def serverLookup (st : DBState) (ipToLookup : String) :
    (LookupResponse × List (DBType × String)) × DBState :=
  (lookupHandler st ipToLookup, st)

/-! ## The refresh script (`downloadAndExtractDatabase`, source lines 29-101)

The filesystem tree extracted from the archive is modelled as a list of
named entries; `findMmdbList` is the nested `findMmdbFile` walk, returning
the path (as the list of components below the scratch directory) of the
first `.mmdb` file in depth-first order, or `none`. -/

/-- One entry of the extracted scratch tree. -/
inductive FsEntry where
  | file (name : String)
  | dir (name : String) (children : List FsEntry)

/-- `item.endsWith(".mmdb")` on a file name. -/
def endsWithMmdb (name : String) : Bool :=
  ['.', 'm', 'm', 'd', 'b'].isSuffixOf name.data

/-- `findMmdbFile`: iterate the entries in order; recurse into a directory
first and return its nested result if any, otherwise return the first file
whose name ends with `.mmdb`; `none` when the walk is exhausted. -/
def findMmdbList (pre : List String) : List FsEntry → Option (List String)
  | [] => none
  | .dir name children :: rest =>
      match findMmdbList (pre ++ [name]) children with
      | some p => some p
      | none => findMmdbList pre rest
  | .file name :: rest =>
      if endsWithMmdb name then some (pre ++ [name])
      else findMmdbList pre rest

/-- All `.mmdb` paths of the tree, in the walk's depth-first order (a
specification device used to characterise `findMmdbList`). -/
def mmdbPathsList (pre : List String) : List FsEntry → List (List String)
  | [] => []
  | .dir name children :: rest =>
      mmdbPathsList (pre ++ [name]) children ++ mmdbPathsList pre rest
  | .file name :: rest =>
      (if endsWithMmdb name then [pre ++ [name]] else []) ++ mmdbPathsList pre rest

/-- The outcomes of the fallible steps of one refresh run, together with
the tree that extraction would produce: the download/write step, the
`tar.extract` step and the `copyFileSync` step each either succeed or
throw. -/
structure RefreshOracle where
  downloadOk : Bool
  extractOk : Bool
  tree : List FsEntry
  copyOk : Bool

/-- The scratch and destination artifacts on disk when the run completes. -/
structure Scratch where
  tempFile : Bool
  tempDir : Bool
  dest : Bool
deriving DecidableEq

/-- The `try` block of `downloadAndExtractDatabase`: `.error` carries the
thrown message and the artifact state at the throw point. The temp archive
is written before the temp directory is created; on full success the
archive is unlinked and the directory removed recursively. -/
def refreshBody (o : RefreshOracle) : Except String Unit × Scratch :=
  if !o.downloadOk then
    (.error "download failed", { tempFile := false, tempDir := false, dest := false })
  else if !o.extractOk then
    (.error "extract failed", { tempFile := true, tempDir := true, dest := false })
  else
    match findMmdbList [] o.tree with
    | none =>
        (.error "Could not find .mmdb file",
         { tempFile := true, tempDir := true, dest := false })
    | some _ =>
        if !o.copyOk then
          (.error "copy failed", { tempFile := true, tempDir := true, dest := false })
        else
          (.ok (), { tempFile := false, tempDir := false, dest := true })

/-- `downloadAndExtractDatabase`: the `catch` block unlinks the temp
archive when it exists and touches nothing else; the error itself is only
logged, never rethrown. -/
def downloadAndExtractDatabase (o : RefreshOracle) : Except String Unit × Scratch :=
  match refreshBody o with
  | (.ok (), s) => (.ok (), s)
  | (.error e, s) => (.error e, { s with tempFile := false })

/-! ## Specification devices

The next four definitions are not part of the embedding: they give, per
handle group, the value each block of the handler computes, and are proved
equal to what `lookupHandler` produces (`lookupHandler_decomposes`). -/

/-- The location block as determined by the city and country handles
alone. -/
def locResolve (cityDB : Option (Handle CityData))
    (countryDB : Option (Handle CountryData)) (ip : String) : LocationBlock :=
  match cityDB with
  | some f =>
      match f ip with
      | some d => applyCityData (defaultResult ip).location d
      | none => (defaultResult ip).location
  | none =>
      match countryDB with
      | some f =>
          match f ip with
          | some d => applyCountryData (defaultResult ip).location d
          | none => (defaultResult ip).location
      | none => (defaultResult ip).location

/-- The network block as determined by the ASN handle alone. -/
def netResolve (asnDB : Option (Handle AsnData)) (ip : String) : NetworkBlock :=
  match asnDB with
  | some f =>
      match f ip with
      | some d => applyAsnData (defaultResult ip).network d
      | none => (defaultResult ip).network
  | none => (defaultResult ip).network

/-- The `.get` calls of the location step. -/
def locLog (cityDB : Option (Handle CityData))
    (countryDB : Option (Handle CountryData)) (ip : String) :
    List (DBType × String) :=
  match cityDB with
  | some _ => [(DBType.city, ip)]
  | none =>
      match countryDB with
      | some _ => [(DBType.country, ip)]
      | none => []

/-- The `.get` calls of the network step. -/
def netLog (asnDB : Option (Handle AsnData)) (ip : String) :
    List (DBType × String) :=
  match asnDB with
  | some _ => [(DBType.asn, ip)]
  | none => []

/-- A sample ASN record used by concrete witnesses. -/
def sampleAsn : AsnData := ⟨15169, "Google LLC"⟩

/-- A fully populated city record used by concrete witnesses. -/
def sampleCity : CityData where
  country := some ⟨⟨"United States"⟩, "US"⟩
  subdivisions := [⟨⟨"California"⟩⟩]
  city := some ⟨⟨"Mountain View"⟩⟩
  postal := some ⟨"94043"⟩
  location := some ⟨37, -122, "America/Los_Angeles"⟩

/-! ## Helper lemmas -/

/-- On a valid IP with at least one handle loaded, the handler's response
splits into a location block read only from the city/country handles and a
network block read only from the ASN handle, and its query log is the
concatenation of the two steps' logs. -/
theorem lookupHandler_decomposes (st : DBState) (ip : String)
    (hval : isValidIPv4 ip = true)
    (hload : (st.ipCityDB.isNone && st.ipCountryDB.isNone && st.ipAsnDB.isNone)
      = false) :
    lookupHandler st ip =
      (.success
        { defaultResult ip with
          location := locResolve st.ipCityDB st.ipCountryDB ip
          network := netResolve st.ipAsnDB ip },
       locLog st.ipCityDB st.ipCountryDB ip ++ netLog st.ipAsnDB ip) := by
  obtain ⟨c, ci, a⟩ := st
  rcases ci with _ | f <;> rcases c with _ | fc <;> rcases a with _ | g
  · simp at hload
  · cases hg : g ip <;>
      simp [lookupHandler, hval, locResolve, netResolve, locLog, netLog, hg,
        defaultResult]
  · cases hfc : fc ip <;>
      simp [lookupHandler, hval, locResolve, netResolve, locLog, netLog, hfc,
        defaultResult]
  · cases hfc : fc ip <;> cases hg : g ip <;>
      simp [lookupHandler, hval, locResolve, netResolve, locLog, netLog, hfc, hg,
        defaultResult]
  · cases hf : f ip <;>
      simp [lookupHandler, hval, locResolve, netResolve, locLog, netLog, hf,
        defaultResult]
  · cases hf : f ip <;> cases hg : g ip <;>
      simp [lookupHandler, hval, locResolve, netResolve, locLog, netLog, hf, hg,
        defaultResult]
  · cases hf : f ip <;>
      simp [lookupHandler, hval, locResolve, netResolve, locLog, netLog, hf,
        defaultResult]
  · cases hf : f ip <;> cases hg : g ip <;>
      simp [lookupHandler, hval, locResolve, netResolve, locLog, netLog, hf, hg,
        defaultResult]

/-- Inversion: a success response can only arise from a valid IP with at
least one handle loaded, and then the record is the decomposed one. -/
theorem lookupHandler_success_inv (st : DBState) (ip : String)
    (rec : GeoRecord) (h : (lookupHandler st ip).1 = .success rec) :
    isValidIPv4 ip = true ∧
    (st.ipCityDB.isNone && st.ipCountryDB.isNone && st.ipAsnDB.isNone)
      = false ∧
    rec = { defaultResult ip with
            location := locResolve st.ipCityDB st.ipCountryDB ip
            network := netResolve st.ipAsnDB ip } := by
  cases hv : isValidIPv4 ip with
  | false =>
      rw [show lookupHandler st ip =
          (.errorResp 400 "Invalid IP address format"
            "Please provide a valid IPv4 address.", []) from by
        simp [lookupHandler, hv]] at h
      simp at h
  | true =>
      cases hl :
          (st.ipCityDB.isNone && st.ipCountryDB.isNone && st.ipAsnDB.isNone) with
      | true =>
          simp only [Bool.and_eq_true, Option.isNone_iff_eq_none] at hl
          obtain ⟨⟨h1, h2⟩, h3⟩ := hl
          rw [show lookupHandler st ip =
              (.errorResp 503 "Service unavailable"
                "IP databases are not loaded. Please check server configuration.",
               []) from by simp [lookupHandler, hv, h1, h2, h3]] at h
          simp at h
      | false =>
          rw [lookupHandler_decomposes st ip hv hl] at h
          simp only [LookupResponse.success.injEq] at h
          exact ⟨rfl, rfl, h.symm⟩

/-- An invalid IP string short-circuits the handler: 400 and an empty
query log. -/
theorem lookupHandler_invalid (st : DBState) (ip : String)
    (hinv : isValidIPv4 ip = false) :
    lookupHandler st ip =
      (.errorResp 400 "Invalid IP address format"
        "Please provide a valid IPv4 address.", []) := by
  simp [lookupHandler, hinv]

/-- With all three handles unpublished the handler answers 503 with an
empty query log. -/
theorem lookupHandler_unavailable (st : DBState) (ip : String)
    (hval : isValidIPv4 ip = true)
    (hload : (st.ipCityDB.isNone && st.ipCountryDB.isNone && st.ipAsnDB.isNone)
      = true) :
    lookupHandler st ip =
      (.errorResp 503 "Service unavailable"
        "IP databases are not loaded. Please check server configuration.",
       []) := by
  simp only [Bool.and_eq_true, Option.isNone_iff_eq_none] at hload
  obtain ⟨⟨h1, h2⟩, h3⟩ := hload
  simp [lookupHandler, hval, h1, h2, h3]

/-- The directory walk returns exactly the head of the depth-first list of
`.mmdb` paths. -/
theorem findMmdbList_eq_head : ∀ (pre : List String) (es : List FsEntry),
    findMmdbList pre es = (mmdbPathsList pre es).head?
  | _, [] => by simp [findMmdbList, mmdbPathsList]
  | pre, .dir name children :: rest => by
      have h1 := findMmdbList_eq_head (pre ++ [name]) children
      have h2 := findMmdbList_eq_head pre rest
      simp only [findMmdbList, mmdbPathsList, h1, h2]
      cases mmdbPathsList (pre ++ [name]) children <;> simp
  | pre, .file name :: rest => by
      have h2 := findMmdbList_eq_head pre rest
      simp only [findMmdbList, mmdbPathsList, h2]
      cases endsWithMmdb name <;> simp

/-! ## The claims -/

/-- C2: any string failing the IPv4 dotted-quad regex makes the lookup
endpoint answer 400 with the validation error message, with no database
`.get` performed (empty query log), whatever handles are loaded. -/
theorem invalid_ip_rejected_before_any_db (st : DBState) (ip : String)
    (hinv : isValidIPv4 ip = false) :
    lookupHandler st ip =
      (.errorResp 400 "Invalid IP address format"
        "Please provide a valid IPv4 address.", []) :=
  lookupHandler_invalid st ip hinv

/-- C2 witness: `"999.1.1.1"` is rejected with 400 and an empty query log
even with every database loaded. -/
theorem invalid_ip_rejected_before_any_db_witness :
    isValidIPv4 "999.1.1.1" = false ∧
    lookupHandler
      ⟨some (fun _ => none), some (fun _ => none), some (fun _ => none)⟩
      "999.1.1.1" =
      (.errorResp 400 "Invalid IP address format"
        "Please provide a valid IPv4 address.", []) :=
  ⟨by decide, invalid_ip_rejected_before_any_db _ _ (by decide)⟩

/-- C3: with no handle published for any database type, a syntactically
valid IP gets the 503 service-unavailable response (and no `.get`
happens), never a default-filled record. -/
theorem no_handles_gives_503 (st : DBState) (ip : String)
    (hval : isValidIPv4 ip = true)
    (hc : st.ipCountryDB = none) (hci : st.ipCityDB = none)
    (ha : st.ipAsnDB = none) :
    lookupHandler st ip =
      (.errorResp 503 "Service unavailable"
        "IP databases are not loaded. Please check server configuration.",
       []) :=
  lookupHandler_unavailable st ip hval (by simp [hc, hci, ha])

/-- C3 witness: `"8.8.8.8"` against the fresh server state. -/
theorem no_handles_gives_503_witness :
    lookupHandler ⟨none, none, none⟩ "8.8.8.8" =
      (.errorResp 503 "Service unavailable"
        "IP databases are not loaded. Please check server configuration.",
       []) :=
  no_handles_gives_503 ⟨none, none, none⟩ "8.8.8.8" (by decide) rfl rfl rfl

/-- C9: the validator accepts octets written with leading zeros:
`"010.001.002.003"` passes, and with a city handle published the endpoint
proceeds to query the database instead of answering 400. -/
theorem leading_zero_octets_accepted (st : DBState) (cdb : Handle CityData)
    (hcity : st.ipCityDB = some cdb) :
    isValidIPv4 "010.001.002.003" = true ∧
    (∀ e m, (lookupHandler st "010.001.002.003").1 ≠ .errorResp 400 e m) ∧
    (DBType.city, "010.001.002.003") ∈ (lookupHandler st "010.001.002.003").2 := by
  have hval : isValidIPv4 "010.001.002.003" = true := by decide
  have hload :
      (st.ipCityDB.isNone && st.ipCountryDB.isNone && st.ipAsnDB.isNone)
        = false := by simp [hcity]
  refine ⟨hval, ?_, ?_⟩
  · intro e m
    rw [lookupHandler_decomposes st _ hval hload]
    simp
  · rw [lookupHandler_decomposes st _ hval hload]
    simp [locLog, hcity]

/-- C9 witness: the leading-zero address with a loaded (empty) city
handle. -/
theorem leading_zero_octets_accepted_witness :
    isValidIPv4 "010.001.002.003" = true ∧
    (∀ e m,
      (lookupHandler ⟨none, some (fun _ => none), none⟩ "010.001.002.003").1
        ≠ .errorResp 400 e m) ∧
    (DBType.city, "010.001.002.003") ∈
      (lookupHandler ⟨none, some (fun _ => none), none⟩ "010.001.002.003").2 :=
  leading_zero_octets_accepted ⟨none, some (fun _ => none), none⟩ _ rfl

/-- C10: a lookup is a pure read of the server state: it leaves the three
global handles unchanged, and re-evaluating the request on the state the
first call leaves behind returns the identical response and query log. -/
theorem lookup_deterministic (st : DBState) (ip : String) :
    (serverLookup st ip).2 = st ∧
    (serverLookup (serverLookup st ip).2 ip).1 = (serverLookup st ip).1 :=
  ⟨rfl, rfl⟩

/-- C1: with a city handle published whose lookup misses, the location
block keeps all its defaults (country fields included) and no country
`.get` is made; in general the country handle is queried only when no city
handle is published at all. -/
theorem city_miss_no_country_fallback (st : DBState) (cdb : Handle CityData)
    (ip : String) (hval : isValidIPv4 ip = true)
    (hcity : st.ipCityDB = some cdb) (hmiss : cdb ip = none) :
    (∃ rec, (lookupHandler st ip).1 = .success rec ∧
      rec.location = (defaultResult ip).location) ∧
    (∀ q, (DBType.country, q) ∉ (lookupHandler st ip).2) ∧
    (∀ st' ip' q, (DBType.country, q) ∈ (lookupHandler st' ip').2 →
      st'.ipCityDB = none) := by
  have hload :
      (st.ipCityDB.isNone && st.ipCountryDB.isNone && st.ipAsnDB.isNone)
        = false := by simp [hcity]
  refine ⟨?_, ?_, ?_⟩
  · rw [lookupHandler_decomposes st ip hval hload]
    exact ⟨_, rfl, by simp [locResolve, hcity, hmiss]⟩
  · intro q
    rw [lookupHandler_decomposes st ip hval hload]
    cases hasn : st.ipAsnDB <;> simp [locLog, netLog, hcity, hasn]
  · intro st' ip' q hmem
    cases hv : isValidIPv4 ip' with
    | false =>
        rw [lookupHandler_invalid st' ip' hv] at hmem
        simp at hmem
    | true =>
        cases hload' :
            (st'.ipCityDB.isNone && st'.ipCountryDB.isNone && st'.ipAsnDB.isNone) with
        | true =>
            rw [lookupHandler_unavailable st' ip' hv hload'] at hmem
            simp at hmem
        | false =>
            rw [lookupHandler_decomposes st' ip' hv hload'] at hmem
            cases hci : st'.ipCityDB with
            | none => rfl
            | some f =>
                exfalso
                cases hasn : st'.ipAsnDB <;>
                  simp [locLog, netLog, hci, hasn] at hmem

/-- C1 witness: a loaded city handle that misses on `"8.8.8.8"`, with a
country handle also loaded. -/
theorem city_miss_no_country_fallback_witness :
    (∃ rec,
      (lookupHandler
        ⟨some (fun _ => some { country := some ⟨⟨"United States"⟩, "US"⟩ }),
         some (fun _ => none), none⟩ "8.8.8.8").1 = .success rec ∧
      rec.location = (defaultResult "8.8.8.8").location) ∧
    (∀ q, (DBType.country, q) ∉
      (lookupHandler
        ⟨some (fun _ => some { country := some ⟨⟨"United States"⟩, "US"⟩ }),
         some (fun _ => none), none⟩ "8.8.8.8").2) ∧
    (∀ st' ip' q, (DBType.country, q) ∈ (lookupHandler st' ip').2 →
      st'.ipCityDB = none) :=
  city_miss_no_country_fallback
    ⟨some (fun _ => some { country := some ⟨⟨"United States"⟩, "US"⟩ }),
     some (fun _ => none), none⟩ _ "8.8.8.8" (by decide) rfl rfl

/-- C4: with only a country handle published, the city-level fields
(region, city, zip code, coordinates, timezone) keep their defaults for
every valid IP, while a country-database hit with a country sub-record
fills in the country name and code from it. -/
theorem country_only_populates_country_fields (st : DBState)
    (cdb : Handle CountryData) (ip : String)
    (hval : isValidIPv4 ip = true)
    (hcity : st.ipCityDB = none) (hcountry : st.ipCountryDB = some cdb) :
    ∃ rec, (lookupHandler st ip).1 = .success rec ∧
      rec.location.region = "Unknown" ∧
      rec.location.city = "Unknown" ∧
      rec.location.zipCode = "Unknown" ∧
      rec.location.coordinates.latitude = none ∧
      rec.location.coordinates.longitude = none ∧
      rec.location.timezone = "Unknown" ∧
      (∀ d cinfo, cdb ip = some d → d.country = some cinfo →
        rec.location.country = cinfo.names.en ∧
        rec.location.countryCode = cinfo.iso_code) := by
  have hload :
      (st.ipCityDB.isNone && st.ipCountryDB.isNone && st.ipAsnDB.isNone)
        = false := by simp [hcountry]
  rw [lookupHandler_decomposes st ip hval hload]
  refine ⟨_, rfl, ?_⟩
  simp only [locResolve, hcity, hcountry]
  cases hd : cdb ip with
  | none => simp [defaultResult]
  | some d =>
      cases hc : d.country with
      | none =>
          simp [applyCountryData, hc, defaultResult]
          intro d' cinfo h1 h2
          subst h1
          exact absurd h2 (by simp [hc])
      | some cinfo =>
          simp [applyCountryData, hc, defaultResult]
          intro d' cinfo' h1 h2
          subst h1
          rw [hc] at h2
          cases h2
          exact ⟨rfl, rfl⟩

/-- C4 witness: only a country handle, hitting with a US record. -/
theorem country_only_populates_country_fields_witness :
    ∃ rec,
      (lookupHandler
        ⟨some (fun _ => some { country := some ⟨⟨"United States"⟩, "US"⟩ }),
         none, none⟩ "8.8.8.8").1 = .success rec ∧
      rec.location.region = "Unknown" ∧
      rec.location.city = "Unknown" ∧
      rec.location.zipCode = "Unknown" ∧
      rec.location.coordinates.latitude = none ∧
      rec.location.coordinates.longitude = none ∧
      rec.location.timezone = "Unknown" ∧
      (∀ d cinfo,
        (fun _ => some { country := some ⟨⟨"United States"⟩, "US"⟩ } :
          Handle CountryData) "8.8.8.8" = some d → d.country = some cinfo →
        rec.location.country = cinfo.names.en ∧
        rec.location.countryCode = cinfo.iso_code) :=
  country_only_populates_country_fields
    ⟨some (fun _ => some { country := some ⟨⟨"United States"⟩, "US"⟩ }),
     none, none⟩ _ "8.8.8.8" (by decide) rfl rfl

/-- C5: the network block depends only on the ASN handle — any two states
sharing the ASN slot (loaded or not, hit or miss, with arbitrary and
different city/country handles) yield equal network blocks — and, vice
versa, the location block depends only on the city/country handles, with
the ASN slot varying freely between the two states; with only the ASN
handle published a hit keeps `location.country = "Unknown"` while
`network.asn` carries the record's AS number; and each published handle's
`.get` is performed whatever the other handles hold or return. -/
theorem network_and_location_independent (st st' : DBState) (ip : String) :
    (st.ipAsnDB = st'.ipAsnDB →
      ∀ rec rec', (lookupHandler st ip).1 = .success rec →
        (lookupHandler st' ip).1 = .success rec' →
        rec.network = rec'.network) ∧
    (st.ipCityDB = st'.ipCityDB → st.ipCountryDB = st'.ipCountryDB →
      ∀ rec rec', (lookupHandler st ip).1 = .success rec →
        (lookupHandler st' ip).1 = .success rec' →
        rec.location = rec'.location) ∧
    (∀ adb d, isValidIPv4 ip = true → adb ip = some d →
      (lookupHandler ⟨none, none, some adb⟩ ip).1 = .success
        { defaultResult ip with
          network := applyAsnData (defaultResult ip).network d } ∧
      (applyAsnData (defaultResult ip).network d).asn
        = some d.autonomous_system_number ∧
      (defaultResult ip).location.country = "Unknown") ∧
    (∀ adb, isValidIPv4 ip = true → st.ipAsnDB = some adb →
      (DBType.asn, ip) ∈ (lookupHandler st ip).2) ∧
    (∀ cdb, isValidIPv4 ip = true → st.ipCityDB = some cdb →
      (DBType.city, ip) ∈ (lookupHandler st ip).2) := by
  refine ⟨?_, ?_, ?_, ?_, ?_⟩
  · intro hsame rec rec' h h'
    obtain ⟨hv, hl, hrec⟩ := lookupHandler_success_inv st ip rec h
    obtain ⟨hv', hl', hrec'⟩ := lookupHandler_success_inv st' ip rec' h'
    subst hrec
    subst hrec'
    simp [hsame]
  · intro hci hcc rec rec' h h'
    obtain ⟨hv, hl, hrec⟩ := lookupHandler_success_inv st ip rec h
    obtain ⟨hv', hl', hrec'⟩ := lookupHandler_success_inv st' ip rec' h'
    subst hrec
    subst hrec'
    simp [hci, hcc]
  · intro adb d hval hhit
    refine ⟨?_, rfl, rfl⟩
    rw [lookupHandler_decomposes ⟨none, none, some adb⟩ ip hval (by simp)]
    simp [locResolve, netResolve, hhit]
  · intro adb hval hasn
    rw [lookupHandler_decomposes st ip hval (by simp [hasn])]
    cases hci : st.ipCityDB <;> cases hcc : st.ipCountryDB <;>
      simp [locLog, netLog, hasn, hci, hcc]
  · intro cdb hval hcity
    rw [lookupHandler_decomposes st ip hval (by simp [hcity])]
    simp [locLog, hcity]

/-- C5 witness: part 1 between a state with hitting city, country and ASN
handles and a state holding only the same ASN handle (different location
handles, different location blocks, equal network blocks); part 2 between
that only-ASN state and a state whose distinct ASN handle misses
(different ASN slots, equal location blocks); plus the only-ASN example
and both query-log facts. -/
theorem network_and_location_independent_witness :
    (({ defaultResult "8.8.8.8" with
        location := applyCityData (defaultResult "8.8.8.8").location sampleCity
        network := applyAsnData (defaultResult "8.8.8.8").network sampleAsn }
      : GeoRecord).network
      = ({ defaultResult "8.8.8.8" with
           network := applyAsnData (defaultResult "8.8.8.8").network sampleAsn }
        : GeoRecord).network) ∧
    (({ defaultResult "8.8.8.8" with
        network := applyAsnData (defaultResult "8.8.8.8").network sampleAsn }
      : GeoRecord).location = (defaultResult "8.8.8.8").location) ∧
    ((lookupHandler ⟨none, none, some (fun _ => some sampleAsn)⟩ "8.8.8.8").1
      = .success
        { defaultResult "8.8.8.8" with
          network := applyAsnData (defaultResult "8.8.8.8").network sampleAsn }) ∧
    ((applyAsnData (defaultResult "8.8.8.8").network sampleAsn).asn
      = some 15169) ∧
    ((defaultResult "8.8.8.8").location.country = "Unknown") ∧
    ((DBType.asn, "8.8.8.8") ∈
      (lookupHandler
        ⟨some (fun _ => some { country := some ⟨⟨"United States"⟩, "US"⟩ }),
         some (fun _ => some sampleCity), some (fun _ => some sampleAsn)⟩
        "8.8.8.8").2) ∧
    ((DBType.city, "8.8.8.8") ∈
      (lookupHandler
        ⟨some (fun _ => some { country := some ⟨⟨"United States"⟩, "US"⟩ }),
         some (fun _ => some sampleCity), some (fun _ => some sampleAsn)⟩
        "8.8.8.8").2) := by
  have h1 := network_and_location_independent
    ⟨some (fun _ => some { country := some ⟨⟨"United States"⟩, "US"⟩ }),
     some (fun _ => some sampleCity), some (fun _ => some sampleAsn)⟩
    ⟨none, none, some (fun _ => some sampleAsn)⟩ "8.8.8.8"
  have h2 := network_and_location_independent
    ⟨none, none, some (fun _ => some sampleAsn)⟩
    ⟨none, none, some (fun _ => none)⟩ "8.8.8.8"
  have hex := h1.2.2.1 (fun _ => some sampleAsn) sampleAsn (by decide) rfl
  have hsA :
      (lookupHandler
        ⟨some (fun _ => some { country := some ⟨⟨"United States"⟩, "US"⟩ }),
         some (fun _ => some sampleCity), some (fun _ => some sampleAsn)⟩
        "8.8.8.8").1 = .success
        { defaultResult "8.8.8.8" with
          location := applyCityData (defaultResult "8.8.8.8").location sampleCity
          network := applyAsnData (defaultResult "8.8.8.8").network sampleAsn } := by
    rw [lookupHandler_decomposes _ _ (by decide) (by simp)]
    simp [locResolve, netResolve]
  have hsC :
      (lookupHandler ⟨none, none, some (fun _ => none)⟩ "8.8.8.8").1
        = .success (defaultResult "8.8.8.8") := by
    rw [lookupHandler_decomposes _ _ (by decide) (by simp)]
    simp [locResolve, netResolve]
  refine ⟨h1.1 rfl _ _ hsA hex.1, h2.2.1 rfl rfl _ _ hex.1 hsC, hex.1, hex.2.1,
    hex.2.2, ?_, ?_⟩
  · exact h1.2.2.2.1 (fun _ => some sampleAsn) (by decide) rfl
  · exact h1.2.2.2.2 (fun _ => some sampleCity) (by decide) rfl

/-- C6: the response record's shape is the fixed `GeoRecord` structure; on
a full data miss the endpoint still answers 200 with every field at its
explicit sentinel (`"Unknown"`, code `"XX"`, numeric `none`), and a city
record carrying none of its optional parts changes nothing either. -/
theorem miss_still_200_with_sentinels (st : DBState) (ip : String)
    (hval : isValidIPv4 ip = true)
    (hload : (st.ipCityDB.isNone && st.ipCountryDB.isNone && st.ipAsnDB.isNone)
      = false)
    (hc : ∀ f, st.ipCityDB = some f → f ip = none)
    (hco : ∀ f, st.ipCountryDB = some f → f ip = none)
    (ha : ∀ f, st.ipAsnDB = some f → f ip = none) :
    (lookupHandler st ip).1 = .success (defaultResult ip) ∧
    (defaultResult ip).statusCode = 200 ∧
    (defaultResult ip).status = "success" ∧
    (defaultResult ip).location.country = "Unknown" ∧
    (defaultResult ip).location.countryCode = "XX" ∧
    (defaultResult ip).location.region = "Unknown" ∧
    (defaultResult ip).location.city = "Unknown" ∧
    (defaultResult ip).location.zipCode = "Unknown" ∧
    (defaultResult ip).location.coordinates.latitude = none ∧
    (defaultResult ip).location.coordinates.longitude = none ∧
    (defaultResult ip).location.timezone = "Unknown" ∧
    (defaultResult ip).network.isp = "Unknown" ∧
    (defaultResult ip).network.organization = "Unknown" ∧
    (defaultResult ip).network.asn = none ∧
    (defaultResult ip).network.asName = "Unknown" ∧
    applyCityData (defaultResult ip).location
      { country := none, subdivisions := [], city := none, postal := none,
        location := none } = (defaultResult ip).location := by
  refine ⟨?_, rfl, rfl, rfl, rfl, rfl, rfl, rfl, rfl, rfl, rfl, rfl, rfl, rfl,
    rfl, rfl⟩
  rw [lookupHandler_decomposes st ip hval hload]
  have hloc : locResolve st.ipCityDB st.ipCountryDB ip
      = (defaultResult ip).location := by
    cases hci : st.ipCityDB with
    | some f => simp [locResolve, hc f hci]
    | none =>
        cases hcc : st.ipCountryDB with
        | some f => simp [locResolve, hco f hcc]
        | none => simp [locResolve]
  have hnet : netResolve st.ipAsnDB ip = (defaultResult ip).network := by
    cases hcn : st.ipAsnDB with
    | some f => simp [netResolve, ha f hcn]
    | none => simp [netResolve]
  rw [hloc, hnet]

/-- C6 witness: all three handles loaded but empty, on `"8.8.8.8"`. -/
theorem miss_still_200_with_sentinels_witness :
    (lookupHandler
      ⟨some (fun _ => none), some (fun _ => none), some (fun _ => none)⟩
      "8.8.8.8").1 = .success (defaultResult "8.8.8.8") ∧
    (defaultResult "8.8.8.8").network.asn = none ∧
    applyCityData (defaultResult "8.8.8.8").location
      { country := none, subdivisions := [], city := none, postal := none,
        location := none } = (defaultResult "8.8.8.8").location := by
  have h := miss_still_200_with_sentinels
    ⟨some (fun _ => none), some (fun _ => none), some (fun _ => none)⟩
    "8.8.8.8" (by decide) (by simp)
    (by intro f hf; simp only [Option.some.injEq] at hf; subst hf; rfl)
    (by intro f hf; simp only [Option.some.injEq] at hf; subst hf; rfl)
    (by intro f hf; simp only [Option.some.injEq] at hf; subst hf; rfl)
  exact ⟨h.1, h.2.2.2.2.2.2.2.2.2.2.2.2.2.1, h.2.2.2.2.2.2.2.2.2.2.2.2.2.2.2⟩

/-- C7 counterexample: a run that downloads and extracts fine but finds no
payload file throws inside the `try` block; the `catch` unlinks only the
temp archive, so the scratch directory is still on disk when the job
completes — the claim that both scratch artifacts are always deleted is
false. -/
theorem scratch_dir_left_on_failure :
    (downloadAndExtractDatabase ⟨true, true, [], true⟩).2.tempDir = true ∧
    (downloadAndExtractDatabase ⟨true, true, [], true⟩).2.tempFile = false := by
  simp [downloadAndExtractDatabase, refreshBody, findMmdbList]

/-- C7 amended: the temp archive is always gone when the job completes,
success or failure; the scratch directory (and the installed payload) is
additionally cleaned up (resp. written) when the run succeeds. -/
theorem scratch_archive_always_deleted (o : RefreshOracle) :
    (downloadAndExtractDatabase o).2.tempFile = false ∧
    ((downloadAndExtractDatabase o).1 = .ok () →
      (downloadAndExtractDatabase o).2.tempDir = false ∧
      (downloadAndExtractDatabase o).2.dest = true) := by
  obtain ⟨dl, ex, tree, cp⟩ := o
  cases dl with
  | false => simp [downloadAndExtractDatabase, refreshBody]
  | true =>
      cases ex with
      | false => simp [downloadAndExtractDatabase, refreshBody]
      | true =>
          cases hf : findMmdbList [] tree with
          | none =>
              cases cp <;> simp [downloadAndExtractDatabase, refreshBody, hf]
          | some p =>
              cases cp <;> simp [downloadAndExtractDatabase, refreshBody, hf]

/-- C7 amended witness: a clean run over a tree holding one payload file
removes both scratch artifacts and installs the payload. -/
theorem scratch_archive_always_deleted_witness :
    (downloadAndExtractDatabase
      ⟨true, true, [FsEntry.file "GeoLite2-City.mmdb"], true⟩).2.tempFile
        = false ∧
    (downloadAndExtractDatabase
      ⟨true, true, [FsEntry.file "GeoLite2-City.mmdb"], true⟩).2.tempDir
        = false ∧
    (downloadAndExtractDatabase
      ⟨true, true, [FsEntry.file "GeoLite2-City.mmdb"], true⟩).2.dest
        = true := by
  have h := scratch_archive_always_deleted
    ⟨true, true, [FsEntry.file "GeoLite2-City.mmdb"], true⟩
  have hMmdb : endsWithMmdb "GeoLite2-City.mmdb" = true := by decide
  have hok := h.2
    (by simp [downloadAndExtractDatabase, refreshBody, findMmdbList, hMmdb])
  exact ⟨h.1, hok.1, hok.2⟩

/-- C8 counterexample: a scratch tree holding two `.mmdb` files is not
rejected — the walk returns the first match in depth-first order and the
job completes successfully, installing that payload; the claim that more
than one plausible match fails the job is false. -/
theorem multiple_payloads_not_rejected :
    (mmdbPathsList [] [FsEntry.file "a.mmdb", FsEntry.file "b.mmdb"]).length
      = 2 ∧
    findMmdbList [] [FsEntry.file "a.mmdb", FsEntry.file "b.mmdb"]
      = some ["a.mmdb"] ∧
    downloadAndExtractDatabase
      ⟨true, true, [FsEntry.file "a.mmdb", FsEntry.file "b.mmdb"], true⟩
      = (.ok (), ⟨false, false, true⟩) := by
  have ha : endsWithMmdb "a.mmdb" = true := by decide
  have hb : endsWithMmdb "b.mmdb" = true := by decide
  refine ⟨?_, ?_, ?_⟩
  · simp [mmdbPathsList, ha, hb]
  · simp [findMmdbList, ha]
  · simp [downloadAndExtractDatabase, refreshBody, findMmdbList, ha]

/-- C8 amended: the walk yields the first `.mmdb` path of the tree in
depth-first order — `none` exactly when there is no match — and a run that
reaches the search with no match fails with the payload-not-found error
and installs nothing; multiple matches are not detected. -/
theorem payload_search_zero_fails_first_wins (o : RefreshOracle) :
    findMmdbList [] o.tree = (mmdbPathsList [] o.tree).head? ∧
    (o.downloadOk = true → o.extractOk = true →
      mmdbPathsList [] o.tree = [] →
      (downloadAndExtractDatabase o).1 = .error "Could not find .mmdb file" ∧
      (downloadAndExtractDatabase o).2.dest = false) := by
  refine ⟨findMmdbList_eq_head [] o.tree, ?_⟩
  intro hdl hex hnone
  have hfind : findMmdbList [] o.tree = none := by
    rw [findMmdbList_eq_head [] o.tree, hnone]
    rfl
  simp [downloadAndExtractDatabase, refreshBody, hdl, hex, hfind]

/-- C8 amended witness: an archive whose tree holds a readme but no
`.mmdb` file fails with the payload-not-found error and installs
nothing. -/
theorem payload_search_zero_fails_first_wins_witness :
    findMmdbList [] [FsEntry.dir "GeoLite2-City_20240101" [FsEntry.file "README.txt"]]
      = (mmdbPathsList []
          [FsEntry.dir "GeoLite2-City_20240101" [FsEntry.file "README.txt"]]).head? ∧
    (downloadAndExtractDatabase
      ⟨true, true,
       [FsEntry.dir "GeoLite2-City_20240101" [FsEntry.file "README.txt"]],
       true⟩).1 = .error "Could not find .mmdb file" ∧
    (downloadAndExtractDatabase
      ⟨true, true,
       [FsEntry.dir "GeoLite2-City_20240101" [FsEntry.file "README.txt"]],
       true⟩).2.dest = false := by
  have h := payload_search_zero_fails_first_wins
    ⟨true, true,
     [FsEntry.dir "GeoLite2-City_20240101" [FsEntry.file "README.txt"]], true⟩
  have hReadme : endsWithMmdb "README.txt" = false := by decide
  have hfail := h.2 rfl rfl (by simp [mmdbPathsList, hReadme])
  exact ⟨h.1, hfail.1, hfail.2⟩

end IPLookup
